import Mathlib

/-!
Shallow embedding of the CPQ pricing engine of the quotation-system
repository (the pricing-engine module and its companion type
declarations).  JavaScript numbers are modelled as rationals, timestamps
as integers (the current time is passed explicitly as a parameter
standing for the engine's clock read), and the loosely typed
conditions record is modelled by the optional fields the engine reads,
a missing or ill-typed field being none.  JavaScript string falsiness
(null, undefined, empty string) is modelled faithfully where the engine
tests it.
-/

namespace QuotationSystem

/-- Fields of a rule's conditions payload that the engine reads.
An absent or ill-typed field is modelled as none. -/
structure Conditions where
  min_qty : Option ℚ
  max_qty : Option ℚ
  level : Option String
  product_ids : Option (List String)
  start_date : Option Int
  end_date : Option Int
deriving DecidableEq

/-- A conditions payload with every field absent. -/
def Conditions.empty : Conditions :=
  { min_qty := none, max_qty := none, level := none, product_ids := none,
    start_date := none, end_date := none }

/-- Context for price calculation (PricingContext in the source). -/
structure PricingContext where
  productId : String
  categoryId : Option String
  quantity : ℚ
  customerLevel : String
  basePrice : ℚ
  orgId : String
deriving DecidableEq

/-- Applied rule information (AppliedRuleInfo in the source). -/
structure AppliedRuleInfo where
  ruleId : String
  ruleName : String
  ruleType : String
  discountType : String
  discountValue : ℚ
  discountAmount : ℚ
  priority : Int
deriving DecidableEq

/-- Result of price calculation (PricingResult in the source). -/
structure PricingResult where
  originalPrice : ℚ
  finalPrice : ℚ
  unitPrice : ℚ
  lineTotal : ℚ
  discountPercentage : ℚ
  discountAmount : ℚ
  appliedRules : List AppliedRuleInfo
deriving DecidableEq

/-- Simplified rule consumed by the engine (CalculationRule in the
source).  Note that it carries no activity flag. -/
structure CalculationRule where
  id : String
  name : String
  ruleType : String
  productId : Option String
  categoryId : Option String
  conditions : Conditions
  discountType : String
  discountValue : ℚ
  priority : Int
deriving DecidableEq

/-- matchesTierCondition: quantity at least min_qty (default 0) and at
most max_qty when present. -/
def matchesTierCondition (conditions : Conditions) (quantity : ℚ) : Bool :=
  let minQty := conditions.min_qty.getD 0
  if quantity < minQty then false
  else
    match conditions.max_qty with
    | some maxQty => if maxQty < quantity then false else true
    | none => true

/-- matchesCustomerLevelCondition: a falsy required level (absent or
empty string) matches every customer level. -/
def matchesCustomerLevelCondition (conditions : Conditions) (customerLevel : String) : Bool :=
  match conditions.level with
  | none => true
  | some requiredLevel =>
      if requiredLevel = "" then true else customerLevel = requiredLevel

/-- matchesBundleCondition: requires a non-empty product_ids list
containing the product. -/
def matchesBundleCondition (conditions : Conditions) (productId : String) : Bool :=
  match conditions.product_ids with
  | none => false
  | some bundleProductIds =>
      if bundleProductIds.isEmpty then false
      else bundleProductIds.contains productId

/-- isPromotionActive: now lies within the optional date window; a
missing bound is unbounded on that side. -/
def isPromotionActive (startDate endDate : Option Int) (now : Int) : Bool :=
  if (match startDate with | some s => decide (now < s) | none => false) then false
  else if (match endDate with | some e => decide (e < now) | none => false) then false
  else true

/-- Result record of calculateDiscount. -/
structure DiscountResult where
  discountedPrice : ℚ
  discountAmount : ℚ
deriving DecidableEq

/-- calculateDiscount: discount arithmetic by discount type; an unknown
type is a no-op. -/
def calculateDiscount (price : ℚ) (discountType : String) (discountValue : ℚ) :
    DiscountResult :=
  if discountType = "percentage" then
    let percentDiscount := price * (discountValue / 100)
    { discountedPrice := price - percentDiscount, discountAmount := percentDiscount }
  else if discountType = "fixed" then
    { discountedPrice := max 0 (price - discountValue),
      discountAmount := min price discountValue }
  else if discountType = "price_override" then
    { discountedPrice := discountValue, discountAmount := price - discountValue }
  else
    { discountedPrice := price, discountAmount := 0 }

/-- Product-scope check of the rule filter: a falsy rule productId
(absent or empty string) matches any product. -/
def productScopeMatch (rule : CalculationRule) (context : PricingContext) : Bool :=
  match rule.productId with
  | none => true
  | some p => if p = "" then true else p = context.productId

/-- Category-scope check of the rule filter: a falsy rule categoryId
(absent or empty string) matches any category. -/
def categoryScopeMatch (rule : CalculationRule) (context : PricingContext) : Bool :=
  match rule.categoryId with
  | none => true
  | some c => if c = "" then true else context.categoryId = some c

/-- Body of the filter in filterApplicableRules: scope check (an OR of
the product and category scopes) followed by the type-specific
condition; an unknown rule type passes the condition stage. -/
def ruleMatches (now : Int) (context : PricingContext) (rule : CalculationRule) : Bool :=
  if !productScopeMatch rule context && !categoryScopeMatch rule context then false
  else if rule.ruleType = "tier" then
    matchesTierCondition rule.conditions context.quantity
  else if rule.ruleType = "customer_level" then
    matchesCustomerLevelCondition rule.conditions context.customerLevel
  else if rule.ruleType = "bundle" then
    matchesBundleCondition rule.conditions context.productId
  else if rule.ruleType = "promotion" then
    isPromotionActive rule.conditions.start_date rule.conditions.end_date now
  else true

/-- filterApplicableRules from the source, with the clock explicit. -/
def filterApplicableRules (rules : List CalculationRule) (context : PricingContext)
    (now : Int) : List CalculationRule :=
  rules.filter (ruleMatches now context)

/-- Comparator of the descending-priority sort. -/
def priorityDesc (a b : CalculationRule) : Prop := b.priority ≤ a.priority

instance : DecidableRel priorityDesc :=
  fun a b => (inferInstance : Decidable (b.priority ≤ a.priority))

instance : IsTotal CalculationRule priorityDesc :=
  ⟨fun a b => le_total b.priority a.priority⟩

instance : IsTrans CalculationRule priorityDesc :=
  ⟨fun _ _ _ h1 h2 => le_trans h2 h1⟩

/-- The stable descending-priority sort applied to the applicable
rules. -/
def sortByPriorityDesc (rules : List CalculationRule) : List CalculationRule :=
  List.insertionSort priorityDesc rules

/-- Math.round: round half toward positive infinity. -/
def jsRound (x : ℚ) : Int := ⌊x + 1 / 2⌋

/-- Rounding to two decimals via Math.round (x * 100) / 100. -/
def round2 (x : ℚ) : ℚ := (jsRound (x * 100) : ℚ) / 100

/-- Mutable state of the application loop of calculatePrice. -/
structure PriceState where
  currentPrice : ℚ
  totalDiscountAmount : ℚ
  appliedRules : List AppliedRuleInfo
deriving DecidableEq

/-- One iteration body of the loop in calculatePrice: compute the
discount of the best rule and record it only when the computed amount
is strictly positive. -/
def applyRuleStep (s : PriceState) (bestRule : CalculationRule) : PriceState :=
  let d := calculateDiscount s.currentPrice bestRule.discountType bestRule.discountValue
  if 0 < d.discountAmount then
    { currentPrice := d.discountedPrice,
      totalDiscountAmount := s.totalDiscountAmount + d.discountAmount,
      appliedRules := s.appliedRules ++
        [{ ruleId := bestRule.id, ruleName := bestRule.name,
           ruleType := bestRule.ruleType, discountType := bestRule.discountType,
           discountValue := bestRule.discountValue, discountAmount := d.discountAmount,
           priority := bestRule.priority }] }
  else s

/-- The group of the rules-by-type map for a given type: the sublist of
rules of that type, in list order. -/
def rulesOfType (rules : List CalculationRule) (t : String) : List CalculationRule :=
  rules.filter (fun r => r.ruleType = t)

/-- One iteration of the type-order loop: take the head of the group of
this type, if any, and apply it. -/
def applyTypeStep (sorted : List CalculationRule) (s : PriceState) (ruleType : String) :
    PriceState :=
  match rulesOfType sorted ruleType with
  | [] => s
  | bestRule :: _ => applyRuleStep s bestRule

/-- The fixed application order of rule types. -/
def typeOrder : List String := ["promotion", "bundle", "tier", "customer_level"]

/-- Final value computation of calculatePrice from the loop state. -/
def finalizeResult (context : PricingContext) (s : PriceState) : PricingResult :=
  let unitPrice := round2 s.currentPrice
  let lineTotal := round2 (unitPrice * context.quantity)
  let discountPercentage :=
    if 0 < context.basePrice then
      (jsRound (((context.basePrice - unitPrice) / context.basePrice) * 10000) : ℚ) / 100
    else 0
  { originalPrice := context.basePrice, finalPrice := unitPrice, unitPrice := unitPrice,
    lineTotal := lineTotal, discountPercentage := discountPercentage,
    discountAmount := s.totalDiscountAmount, appliedRules := s.appliedRules }

/-- calculatePrice from the source: filter, sort by descending
priority, group by type, apply the best rule of each type in the fixed
type order, then round. -/
def calculatePrice (context : PricingContext) (rules : List CalculationRule)
    (now : Int) : PricingResult :=
  let sorted := sortByPriorityDesc (filterApplicableRules rules context now)
  let s := typeOrder.foldl (applyTypeStep sorted)
    { currentPrice := context.basePrice, totalDiscountAmount := 0, appliedRules := [] }
  finalizeResult context s

/-- A quote line item as consumed by calculateQuoteTotals. -/
structure QuoteItem where
  unitPrice : ℚ
  quantity : ℚ
deriving DecidableEq

/-- Result record of calculateQuoteTotals. -/
structure QuoteTotals where
  subtotal : ℚ
  taxAmount : ℚ
  totalAmount : ℚ
deriving DecidableEq

/-- calculateQuoteTotals from the source: the tax base is the unrounded
item sum minus the whole-quote discount, with no clamping. -/
def calculateQuoteTotals (items : List QuoteItem) (taxRate : ℚ)
    (discountAmount : ℚ) : QuoteTotals :=
  let subtotal := items.foldl (fun sum item => sum + item.unitPrice * item.quantity) 0
  let taxableAmount := subtotal - discountAmount
  let taxAmount := round2 (taxableAmount * taxRate)
  let totalAmount := round2 (taxableAmount + taxAmount)
  { subtotal := round2 subtotal, taxAmount := taxAmount, totalAmount := totalAmount }

/-- Default argument values of calculateQuoteTotals in the source. -/
def defaultTaxRate : ℚ := 5 / 100

/-- Default whole-quote discount of calculateQuoteTotals. -/
def defaultDiscountAmount : ℚ := 0

/-- calculateQuoteTotals invoked with both optional arguments omitted. -/
def calculateQuoteTotalsDefaults (items : List QuoteItem) : QuoteTotals :=
  calculateQuoteTotals items defaultTaxRate defaultDiscountAmount

/-- Item sum of a quote before rounding. -/
def itemsSubtotal (items : List QuoteItem) : ℚ :=
  (items.map (fun item => item.unitPrice * item.quantity)).sum

/-- Persisted pricing-rule record of the repository's type
declarations: the engine-relevant fields plus the is_active flag and
the rule-level date columns. -/
structure PricingRule where
  id : String
  name : String
  rule_type : String
  product_id : Option String
  category_id : Option String
  conditions : Conditions
  discount_type : String
  discount_value : ℚ
  start_date : Option Int
  end_date : Option Int
  priority : Int
  is_active : Bool
deriving DecidableEq

/-- Modelled from the spec: the caller-side hand-off from persisted
PricingRule records to the engine's CalculationRule input (the rule
repository of the external-interface section).  No such converter
exists under the sources; it is the evident field-for-field
correspondence, and the engine's CalculationRule has no slot that
could receive is_active. -/
def toCalculationRule (r : PricingRule) : CalculationRule :=
  { id := r.id, name := r.name, ruleType := r.rule_type, productId := r.product_id,
    categoryId := r.category_id, conditions := r.conditions,
    discountType := r.discount_type, discountValue := r.discount_value,
    priority := r.priority }

/-- Context of the scenario with one applicable rule of each type. -/
def c1Context : PricingContext :=
  { productId := "p1", categoryId := none, quantity := 10, customerLevel := "vip",
    basePrice := 1000, orgId := "org" }

/-- Promotion rule of the four-type scenario, with the lowest priority. -/
def c1Promotion : CalculationRule :=
  { id := "c1-promo", name := "promo", ruleType := "promotion", productId := none,
    categoryId := none, conditions := Conditions.empty, discountType := "fixed",
    discountValue := 100, priority := 1 }

/-- Bundle rule of the four-type scenario. -/
def c1Bundle : CalculationRule :=
  { id := "c1-bundle", name := "bundle", ruleType := "bundle", productId := none,
    categoryId := none,
    conditions := { Conditions.empty with product_ids := some ["p1"] },
    discountType := "fixed", discountValue := 50, priority := 7 }

/-- Tier rule of the four-type scenario. -/
def c1Tier : CalculationRule :=
  { id := "c1-tier", name := "tier", ruleType := "tier", productId := none,
    categoryId := none,
    conditions := { Conditions.empty with min_qty := some 5 },
    discountType := "percentage", discountValue := 5, priority := 50 }

/-- Customer-level rule of the four-type scenario, with the highest
priority. -/
def c1Level : CalculationRule :=
  { id := "c1-level", name := "level", ruleType := "customer_level", productId := none,
    categoryId := none,
    conditions := { Conditions.empty with level := some "vip" },
    discountType := "percentage", discountValue := 10, priority := 100 }

/-- Context of the two-tier-rule scenario. -/
def c2Context : PricingContext :=
  { productId := "p1", categoryId := none, quantity := 1, customerLevel := "normal",
    basePrice := 100, orgId := "org" }

/-- Higher-priority tier rule of the two-tier-rule scenario. -/
def c2TierHigh : CalculationRule :=
  { id := "c2-high", name := "high", ruleType := "tier", productId := none,
    categoryId := none, conditions := Conditions.empty,
    discountType := "percentage", discountValue := 10, priority := 5 }

/-- Lower-priority tier rule of the two-tier-rule scenario. -/
def c2TierLow : CalculationRule :=
  { id := "c2-low", name := "low", ruleType := "tier", productId := none,
    categoryId := none, conditions := Conditions.empty,
    discountType := "percentage", discountValue := 50, priority := 1 }

/-- The audit entry the two-tier-rule scenario produces. -/
def c2Entry : AppliedRuleInfo :=
  { ruleId := "c2-high", ruleName := "high", ruleType := "tier",
    discountType := "percentage", discountValue := 10, discountAmount := 10,
    priority := 5 }

/-- Context of the price-override scenario. -/
def c4Context : PricingContext :=
  { productId := "p1", categoryId := none, quantity := 1, customerLevel := "normal",
    basePrice := 100, orgId := "org" }

/-- Always-active promotion rule overriding the price upward to 150. -/
def c4Rule : CalculationRule :=
  { id := "c4-override", name := "override", ruleType := "promotion", productId := none,
    categoryId := none, conditions := Conditions.empty,
    discountType := "price_override", discountValue := 150, priority := 1 }

/-- Loop state at a current price of 100 with an empty audit trail. -/
def c4State : PriceState :=
  { currentPrice := 100, totalDiscountAmount := 0, appliedRules := [] }

/-- Context of the stacked promotion and customer-level scenario. -/
def c6Context : PricingContext :=
  { productId := "p1", categoryId := none, quantity := 1, customerLevel := "vip",
    basePrice := 200, orgId := "org" }

/-- Always-active fixed-20 promotion rule of the stacked scenario. -/
def c6Promotion : CalculationRule :=
  { id := "c6-promo", name := "promo", ruleType := "promotion", productId := none,
    categoryId := none, conditions := Conditions.empty, discountType := "fixed",
    discountValue := 20, priority := 1 }

/-- Ten-percent vip customer-level rule of the stacked scenario. -/
def c6CustomerLevel : CalculationRule :=
  { id := "c6-vip", name := "vip", ruleType := "customer_level", productId := none,
    categoryId := none,
    conditions := { Conditions.empty with level := some "vip" },
    discountType := "percentage", discountValue := 10, priority := 99 }

/-- Context whose base price is a tenth of a cent. -/
def c7Context : PricingContext :=
  { productId := "p1", categoryId := none, quantity := 1, customerLevel := "normal",
    basePrice := 1 / 1000, orgId := "org" }

/-- Context with a whole-cent base price. -/
def c7WitnessContext : PricingContext :=
  { productId := "p1", categoryId := none, quantity := 2, customerLevel := "normal",
    basePrice := 50, orgId := "org" }

/-- Context of the malformed-rule scenario. -/
def c8Context : PricingContext :=
  { productId := "p1", categoryId := some "cat1", quantity := 1,
    customerLevel := "normal", basePrice := 10, orgId := "org" }

/-- Rule of an unknown type whose product and category scopes both
mismatch the context. -/
def c8UnknownRule : CalculationRule :=
  { id := "c8-unknown", name := "unknown", ruleType := "special",
    productId := some "other-product", categoryId := some "other-category",
    conditions := Conditions.empty, discountType := "percentage",
    discountValue := 10, priority := 1 }

/-- Bundle rule whose conditions carry no product_ids list. -/
def c8BundleRule : CalculationRule :=
  { id := "c8-bundle", name := "bundle", ruleType := "bundle", productId := none,
    categoryId := none, conditions := Conditions.empty, discountType := "percentage",
    discountValue := 10, priority := 1 }

/-- Context of the inactive-rule scenario. -/
def c9Context : PricingContext :=
  { productId := "p1", categoryId := none, quantity := 1, customerLevel := "normal",
    basePrice := 100, orgId := "org" }

/-- Persisted rule that is switched off but matches every customer
level. -/
def c9Rule : PricingRule :=
  { id := "c9-inactive", name := "inactive", rule_type := "customer_level",
    product_id := none, category_id := none, conditions := Conditions.empty,
    discount_type := "percentage", discount_value := 10, start_date := none,
    end_date := none, priority := 1, is_active := false }

/-- Rule whose computed discount at the c4State price is not positive. -/
def c10Rule : CalculationRule :=
  { id := "c10-rule", name := "rule", ruleType := "tier", productId := none,
    categoryId := none, conditions := Conditions.empty,
    discountType := "price_override", discountValue := 120, priority := 3 }

/-- Loop state of the skipped-rule witness. -/
def c10State : PriceState :=
  { currentPrice := 80, totalDiscountAmount := 0, appliedRules := [] }

/-- C3: the claim as stated is false.  A percentage discount of 200 on
a price of 100 yields a discounted price of -100, violating the
claimed bound discountedPrice at least 0; a fixed discount of -50 on a
price of 100 yields 150, violating discountedPrice at most price. -/
theorem C3_counterexample :
    ((0:ℚ) ≤ 100 ∧ (calculateDiscount 100 "percentage" 200).discountedPrice < 0) ∧
    ((0:ℚ) ≤ 100 ∧ 100 < (calculateDiscount 100 "fixed" (-50)).discountedPrice) := by
  refine ⟨⟨by norm_num, ?_⟩, by norm_num, ?_⟩ <;> simp [calculateDiscount] <;> norm_num

/-- C3 (amended): for a non-negative price, the bounds
discountedPrice at most price, discountAmount at least 0 and
discountedPrice at least 0 hold for a fixed discount of non-negative
value and for a percentage discount whose value lies between 0 and
100. -/
theorem C3_discount_bounds (price discountValue : ℚ) (t : String)
    (hprice : 0 ≤ price)
    (h : t = "fixed" ∧ 0 ≤ discountValue ∨
      t = "percentage" ∧ 0 ≤ discountValue ∧ discountValue ≤ 100) :
    (calculateDiscount price t discountValue).discountedPrice ≤ price ∧
    0 ≤ (calculateDiscount price t discountValue).discountAmount ∧
    0 ≤ (calculateDiscount price t discountValue).discountedPrice := by
  rcases h with ⟨ht, hv⟩ | ⟨ht, hv0, hv100⟩
  · subst ht
    have he : calculateDiscount price "fixed" discountValue =
        { discountedPrice := max 0 (price - discountValue),
          discountAmount := min price discountValue } := by
      simp [calculateDiscount]
    rw [he]
    exact ⟨max_le hprice (by linarith), le_min hprice hv, le_max_left _ _⟩
  · subst ht
    have he : calculateDiscount price "percentage" discountValue =
        { discountedPrice := price - price * (discountValue / 100),
          discountAmount := price * (discountValue / 100) } := by
      simp [calculateDiscount]
    rw [he]
    have hd1 : discountValue / 100 ≤ 1 :=
      (div_le_one (by norm_num : (0:ℚ) < 100)).mpr hv100
    have hmul : 0 ≤ price * (discountValue / 100) := mul_nonneg hprice (by positivity)
    have hmul1 : price * (discountValue / 100) ≤ price := by nlinarith
    exact ⟨by linarith, hmul, by linarith⟩

/-- C3 witness: the amended bounds at price 100 with a percentage
discount of 10. -/
theorem C3_discount_bounds_witness :
    ((0:ℚ) ≤ 100 ∧
      ("percentage" = "fixed" ∧ (0:ℚ) ≤ 10 ∨
        "percentage" = "percentage" ∧ (0:ℚ) ≤ 10 ∧ (10:ℚ) ≤ 100)) ∧
    ((calculateDiscount 100 "percentage" 10).discountedPrice ≤ 100 ∧
      0 ≤ (calculateDiscount 100 "percentage" 10).discountAmount ∧
      0 ≤ (calculateDiscount 100 "percentage" 10).discountedPrice) :=
  ⟨⟨by norm_num, Or.inr ⟨rfl, by norm_num, by norm_num⟩⟩,
    C3_discount_bounds 100 10 "percentage" (by norm_num)
      (Or.inr ⟨rfl, by norm_num, by norm_num⟩)⟩

/-- C4: the claim as stated is false.  With a base price of 100 and a
single always-active price-override rule of value 150, the engine
leaves the unit price at 100 and records nothing; the price is not
replaced by the override value. -/
theorem C4_counterexample :
    (calculatePrice c4Context [c4Rule] 0).unitPrice = 100 ∧
    (calculatePrice c4Context [c4Rule] 0).unitPrice ≠ c4Rule.discountValue ∧
    (calculatePrice c4Context [c4Rule] 0).appliedRules = [] := by
  refine ⟨?_, ?_, ?_⟩ <;>
    simp [calculatePrice, filterApplicableRules, ruleMatches, productScopeMatch,
      categoryScopeMatch, isPromotionActive, c4Context, c4Rule, Conditions.empty,
      sortByPriorityDesc, List.insertionSort, typeOrder, applyTypeStep, rulesOfType,
      applyRuleStep, calculateDiscount, finalizeResult, round2, jsRound] <;>
    norm_num

/-- C4 (amended): calculateDiscount computes the price-override
discount amount as price minus discountValue with no clamping, and
when the override value is at or above the running price (computed
amount not positive) the application step leaves the state unchanged:
the rule is excluded from the audit trail and the price is not
replaced. -/
theorem C4_override_skip (s : PriceState) (r : CalculationRule) :
    calculateDiscount s.currentPrice "price_override" r.discountValue =
      { discountedPrice := r.discountValue,
        discountAmount := s.currentPrice - r.discountValue } ∧
    (r.discountType = "price_override" → s.currentPrice ≤ r.discountValue →
      applyRuleStep s r = s) := by
  constructor
  · simp [calculateDiscount]
  · intro ht hle
    have hneg : ¬ 0 < s.currentPrice - r.discountValue := by linarith
    simp [applyRuleStep, calculateDiscount, ht, hneg]

/-- C4 witness: the amended statement at the override scenario's state
and rule. -/
theorem C4_override_skip_witness :
    (c4Rule.discountType = "price_override" ∧
      c4State.currentPrice ≤ c4Rule.discountValue) ∧
    (calculateDiscount c4State.currentPrice "price_override" c4Rule.discountValue =
      { discountedPrice := c4Rule.discountValue,
        discountAmount := c4State.currentPrice - c4Rule.discountValue } ∧
      applyRuleStep c4State c4Rule = c4State) :=
  ⟨⟨rfl, by norm_num [c4State, c4Rule]⟩,
    (C4_override_skip c4State c4Rule).1,
    (C4_override_skip c4State c4Rule).2 rfl (by norm_num [c4State, c4Rule])⟩

/-- C6: at a base price of 200, an always-active fixed-20 promotion
and a ten-percent vip customer-level rule stack to a unit price of 162
and a total discount of 38, the promotion applied first (amount 20)
and the customer-level discount computed on the running price 180
(amount 18). -/
theorem C6_stacked_scenario :
    (calculatePrice c6Context [c6CustomerLevel, c6Promotion] 0).unitPrice = 162 ∧
    (calculatePrice c6Context [c6CustomerLevel, c6Promotion] 0).discountAmount = 38 ∧
    ((calculatePrice c6Context [c6CustomerLevel, c6Promotion] 0).appliedRules.map
      (fun e => e.discountAmount)) = [20, 18] := by
  refine ⟨?_, ?_, ?_⟩ <;>
    simp [calculatePrice, filterApplicableRules, ruleMatches, productScopeMatch,
      categoryScopeMatch, matchesCustomerLevelCondition, isPromotionActive,
      c6Context, c6CustomerLevel, c6Promotion, Conditions.empty, sortByPriorityDesc,
      List.insertionSort, List.orderedInsert, priorityDesc, typeOrder, applyTypeStep,
      rulesOfType, applyRuleStep, calculateDiscount, finalizeResult, round2,
      jsRound] <;>
    norm_num

/-- C7: the claim as stated is false.  With no rules and a base price
of a tenth of a cent the final price is rounded to 0 and differs from
the base price, although the discount amount is 0 and the audit trail
is empty. -/
theorem C7_counterexample :
    (calculatePrice c7Context [] 0).finalPrice ≠ c7Context.basePrice ∧
    (calculatePrice c7Context [] 0).discountAmount = 0 ∧
    (calculatePrice c7Context [] 0).appliedRules = [] := by
  refine ⟨?_, ?_, ?_⟩ <;>
    simp [calculatePrice, filterApplicableRules, c7Context, sortByPriorityDesc,
      List.insertionSort, typeOrder, applyTypeStep, rulesOfType, applyRuleStep,
      finalizeResult, round2, jsRound] <;>
    norm_num

/-- C7 (amended): when no rule is applicable (in particular when the
rule list is empty) the final price is the base price rounded to two
decimals — equal to the base price whenever it is a whole number of
cents — the discount amount is 0 and the audit trail is empty. -/
theorem C7_no_applicable_rules (context : PricingContext)
    (rules : List CalculationRule) (now : Int)
    (h : filterApplicableRules rules context now = []) :
    (calculatePrice context rules now).finalPrice = round2 context.basePrice ∧
    (calculatePrice context rules now).discountAmount = 0 ∧
    (calculatePrice context rules now).appliedRules = [] ∧
    ((∃ n : ℤ, context.basePrice = (n : ℚ) / 100) →
      (calculatePrice context rules now).finalPrice = context.basePrice) := by
  have hbase : ∀ x : ℚ, (∃ n : ℤ, x = (n : ℚ) / 100) → round2 x = x := by
    rintro x ⟨n, rfl⟩
    unfold round2 jsRound
    rw [div_mul_cancel₀ _ (by norm_num : (100:ℚ) ≠ 0), Int.floor_int_add]
    norm_num
  refine ⟨?_, ?_, ?_, ?_⟩ <;>
    simp [calculatePrice, h, sortByPriorityDesc, List.insertionSort, typeOrder,
      applyTypeStep, rulesOfType, finalizeResult]
  intro n hn
  rw [hn]
  exact hbase _ ⟨n, rfl⟩

/-- C7 witness: the amended statement at a whole-cent base price of 50
with an empty rule list. -/
theorem C7_no_applicable_rules_witness :
    filterApplicableRules [] c7WitnessContext 0 = [] ∧
    ((calculatePrice c7WitnessContext [] 0).finalPrice =
        round2 c7WitnessContext.basePrice ∧
      (calculatePrice c7WitnessContext [] 0).discountAmount = 0 ∧
      (calculatePrice c7WitnessContext [] 0).appliedRules = [] ∧
      ((∃ n : ℤ, c7WitnessContext.basePrice = (n : ℚ) / 100) →
        (calculatePrice c7WitnessContext [] 0).finalPrice =
          c7WitnessContext.basePrice)) :=
  ⟨rfl, C7_no_applicable_rules c7WitnessContext [] 0 rfl⟩

/-- C8: the claim as stated is false.  A rule of the unknown type
special whose product and category scopes both mismatch the context is
removed by the filter stage, so an unknown-type rule does not match
unconditionally. -/
theorem C8_counterexample :
    c8UnknownRule.ruleType ∉ ["tier", "customer_level", "bundle", "promotion"] ∧
    filterApplicableRules [c8UnknownRule] c8Context 0 = [] := by
  constructor
  · simp [c8UnknownRule]
  · simp [filterApplicableRules, ruleMatches, productScopeMatch, categoryScopeMatch,
      c8UnknownRule, c8Context]

/-- C8 (amended): malformed rule data never faults the engine: a rule
of unknown type passes the type-condition stage unconditionally, being
filtered only by the product/category scope check; an unknown discount
type is applied as a no-op; and a bundle rule whose conditions carry
no product list (or an empty one) never matches. -/
theorem C8_malformed_rules (now : Int) (context : PricingContext)
    (r : CalculationRule) (price dv : ℚ) (t : String) :
    (r.ruleType ∉ ["tier", "customer_level", "bundle", "promotion"] →
      ruleMatches now context r =
        (productScopeMatch r context || categoryScopeMatch r context)) ∧
    (t ∉ ["percentage", "fixed", "price_override"] →
      calculateDiscount price t dv = { discountedPrice := price, discountAmount := 0 }) ∧
    (r.ruleType = "bundle" →
      r.conditions.product_ids = none ∨ r.conditions.product_ids = some [] →
      ruleMatches now context r = false) := by
  refine ⟨?_, ?_, ?_⟩
  · intro h
    simp [not_or] at h
    obtain ⟨h1, h2, h3, h4⟩ := h
    cases hp : productScopeMatch r context <;>
      cases hc : categoryScopeMatch r context <;>
      simp [ruleMatches, hp, hc, h1, h2, h3, h4]
  · intro h
    simp [not_or] at h
    obtain ⟨h1, h2, h3⟩ := h
    simp [calculateDiscount, h1, h2, h3]
  · intro ht hpid
    have hb : matchesBundleCondition r.conditions context.productId = false := by
      rcases hpid with h | h <;> simp [matchesBundleCondition, h]
    cases hp : productScopeMatch r context <;>
      cases hc : categoryScopeMatch r context <;>
      simp [ruleMatches, hp, hc, ht, hb]

/-- C8 witness: the amended statement instantiated at the unknown-type
rule, an unknown discount type and the bundle rule with no product
list. -/
theorem C8_malformed_rules_witness :
    (c8UnknownRule.ruleType ∉ ["tier", "customer_level", "bundle", "promotion"] ∧
      ruleMatches 0 c8Context c8UnknownRule =
        (productScopeMatch c8UnknownRule c8Context ||
          categoryScopeMatch c8UnknownRule c8Context)) ∧
    (("mystery" : String) ∉ ["percentage", "fixed", "price_override"] ∧
      calculateDiscount 5 "mystery" 3 = { discountedPrice := 5, discountAmount := 0 }) ∧
    (c8BundleRule.ruleType = "bundle" ∧
      (c8BundleRule.conditions.product_ids = none ∨
        c8BundleRule.conditions.product_ids = some []) ∧
      ruleMatches 0 c8Context c8BundleRule = false) :=
  ⟨⟨by simp [c8UnknownRule],
      (C8_malformed_rules 0 c8Context c8UnknownRule 5 3 "mystery").1
        (by simp [c8UnknownRule])⟩,
    ⟨by simp,
      (C8_malformed_rules 0 c8Context c8UnknownRule 5 3 "mystery").2.1 (by simp)⟩,
    rfl, Or.inl rfl,
    (C8_malformed_rules 0 c8Context c8BundleRule 5 3 "mystery").2.2 rfl (Or.inl rfl)⟩

/-- C9: the claim as stated is false.  The engine applies the discount
of a persisted rule whose is_active flag is false: the inactive
ten-percent rule still contributes a discount of 10 and appears in the
audit trail, because CalculationRule carries no activity flag and the
filter never checks one. -/
theorem C9_counterexample :
    c9Rule.is_active = false ∧
    (calculatePrice c9Context [toCalculationRule c9Rule] 0).discountAmount = 10 ∧
    (calculatePrice c9Context [toCalculationRule c9Rule] 0).appliedRules ≠ [] := by
  refine ⟨rfl, ?_, ?_⟩ <;>
    simp [calculatePrice, filterApplicableRules, ruleMatches, productScopeMatch,
      categoryScopeMatch, matchesCustomerLevelCondition, toCalculationRule, c9Rule,
      c9Context, Conditions.empty, sortByPriorityDesc, List.insertionSort, typeOrder,
      applyTypeStep, rulesOfType, applyRuleStep, calculateDiscount, finalizeResult,
      round2, jsRound] <;>
    norm_num

/-- Folding the running sum of calculateQuoteTotals equals adding the
mapped item sum. -/
lemma quote_foldl_sum (items : List QuoteItem) :
    ∀ a : ℚ, items.foldl (fun sum item => sum + item.unitPrice * item.quantity) a =
      a + itemsSubtotal items := by
  induction items with
  | nil => intro a; simp [itemsSubtotal]
  | cons i is ih =>
      intro a
      rw [List.foldl_cons, ih]
      simp [itemsSubtotal]
      ring

/-- Membership in a rules-by-type group. -/
lemma mem_rulesOfType {l : List CalculationRule} {t : String} {r : CalculationRule} :
    r ∈ rulesOfType l t ↔ r ∈ l ∧ r.ruleType = t := by
  simp [rulesOfType]

/-- The sort is a permutation, so membership is preserved. -/
lemma mem_sortByPriorityDesc {l : List CalculationRule} {r : CalculationRule} :
    r ∈ sortByPriorityDesc l ↔ r ∈ l :=
  (List.perm_insertionSort priorityDesc l).mem_iff

/-- Grouping commutes with sorting up to permutation. -/
lemma rulesOfType_sort_perm (l : List CalculationRule) (t : String) :
    List.Perm (rulesOfType (sortByPriorityDesc l) t) (rulesOfType l t) :=
  List.Perm.filter _ (List.perm_insertionSort priorityDesc l)

/-- A type group that is a singleton before sorting is the same
singleton after sorting. -/
lemma rulesOfType_sort_singleton {l : List CalculationRule} {t : String}
    {r : CalculationRule} (h : rulesOfType l t = [r]) :
    rulesOfType (sortByPriorityDesc l) t = [r] := by
  have hperm := rulesOfType_sort_perm l t
  rw [h] at hperm
  exact List.perm_singleton.mp hperm

/-- Each type group of the sorted rule list is itself sorted by
descending priority. -/
lemma rulesOfType_sorted_pairwise (l : List CalculationRule) (t : String) :
    (rulesOfType (sortByPriorityDesc l) t).Pairwise priorityDesc :=
  List.Pairwise.sublist (List.filter_sublist _)
    (List.sorted_insertionSort priorityDesc l)

/-- One application step preserves the audit-trail invariant: all
recorded amounts are positive and the running total is their sum. -/
lemma applyRuleStep_invariant (s : PriceState) (r : CalculationRule)
    (h1 : ∀ e ∈ s.appliedRules, 0 < e.discountAmount)
    (h2 : s.totalDiscountAmount = (s.appliedRules.map (fun e => e.discountAmount)).sum) :
    (∀ e ∈ (applyRuleStep s r).appliedRules, 0 < e.discountAmount) ∧
    (applyRuleStep s r).totalDiscountAmount =
      ((applyRuleStep s r).appliedRules.map (fun e => e.discountAmount)).sum := by
  by_cases hpos : 0 < (calculateDiscount s.currentPrice r.discountType r.discountValue).discountAmount
  · constructor
    · intro e he
      simp only [applyRuleStep, if_pos hpos, List.mem_append, List.mem_singleton] at he
      rcases he with he | he
      · exact h1 e he
      · subst he
        exact hpos
    · simp only [applyRuleStep, if_pos hpos, List.map_append, List.sum_append]
      simp [h2]
  · simp only [applyRuleStep, if_neg hpos]
    exact ⟨h1, h2⟩

/-- One type step preserves the audit-trail invariant. -/
lemma applyTypeStep_invariant (sorted : List CalculationRule) (s : PriceState)
    (t : String)
    (h1 : ∀ e ∈ s.appliedRules, 0 < e.discountAmount)
    (h2 : s.totalDiscountAmount = (s.appliedRules.map (fun e => e.discountAmount)).sum) :
    (∀ e ∈ (applyTypeStep sorted s t).appliedRules, 0 < e.discountAmount) ∧
    (applyTypeStep sorted s t).totalDiscountAmount =
      ((applyTypeStep sorted s t).appliedRules.map (fun e => e.discountAmount)).sum := by
  rcases hg : rulesOfType sorted t with _ | ⟨r, rest⟩ <;>
    simp only [applyTypeStep, hg]
  · exact ⟨h1, h2⟩
  · exact applyRuleStep_invariant s r h1 h2

/-- The whole type-order loop preserves the audit-trail invariant. -/
lemma foldl_applyTypeStep_invariant (sorted : List CalculationRule) :
    ∀ (ts : List String) (s : PriceState),
      (∀ e ∈ s.appliedRules, 0 < e.discountAmount) →
      s.totalDiscountAmount = (s.appliedRules.map (fun e => e.discountAmount)).sum →
      (∀ e ∈ (ts.foldl (applyTypeStep sorted) s).appliedRules, 0 < e.discountAmount) ∧
      (ts.foldl (applyTypeStep sorted) s).totalDiscountAmount =
        ((ts.foldl (applyTypeStep sorted) s).appliedRules.map
          (fun e => e.discountAmount)).sum := by
  intro ts
  induction ts with
  | nil => intro s h1 h2; exact ⟨h1, h2⟩
  | cons t ts ih =>
      intro s h1 h2
      rw [List.foldl_cons]
      obtain ⟨g1, g2⟩ := applyTypeStep_invariant sorted s t h1 h2
      exact ih _ g1 g2

/-- Every audit entry produced by the type-order loop is stamped from
the head rule of some processed type group. -/
lemma foldl_applyTypeStep_mem (sorted : List CalculationRule) :
    ∀ (ts : List String) (s : PriceState) (e : AppliedRuleInfo),
      e ∈ (ts.foldl (applyTypeStep sorted) s).appliedRules →
      e ∈ s.appliedRules ∨
      ∃ t, t ∈ ts ∧ ∃ r rest, rulesOfType sorted t = r :: rest ∧
        e.ruleId = r.id ∧ e.ruleName = r.name ∧ e.ruleType = r.ruleType ∧
        e.discountType = r.discountType ∧ e.discountValue = r.discountValue ∧
        e.priority = r.priority := by
  intro ts
  induction ts with
  | nil => intro s e he; exact Or.inl he
  | cons t ts ih =>
      intro s e he
      rw [List.foldl_cons] at he
      rcases ih _ e he with h | ⟨t2, ht2, r, rest, hf, hfields⟩
      · rcases hg : rulesOfType sorted t with _ | ⟨r, rest⟩
        · simp only [applyTypeStep, hg] at h
          exact Or.inl h
        · simp only [applyTypeStep, hg] at h
          by_cases hpos : 0 < (calculateDiscount s.currentPrice r.discountType
              r.discountValue).discountAmount
          · simp only [applyRuleStep, if_pos hpos, List.mem_append,
              List.mem_singleton] at h
            rcases h with h | h
            · exact Or.inl h
            · subst h
              exact Or.inr ⟨t, List.mem_cons_self t ts, r, rest, hg, rfl, rfl, rfl,
                rfl, rfl, rfl⟩
          · simp only [applyRuleStep, if_neg hpos] at h
            exact Or.inl h
      · exact Or.inr ⟨t2, List.mem_cons_of_mem t ht2, r, rest, hf, hfields⟩

/-- The type-order loop adds at most one audit entry per processed
type, provided the processed types are distinct. -/
lemma foldl_applyTypeStep_count (sorted : List CalculationRule) :
    ∀ (ts : List String), ts.Nodup → ∀ (s : PriceState) (t : String),
      ((ts.foldl (applyTypeStep sorted) s).appliedRules.filter
        (fun e => e.ruleType = t)).length ≤
      (s.appliedRules.filter (fun e => e.ruleType = t)).length +
        (if t ∈ ts then 1 else 0) := by
  intro ts
  induction ts with
  | nil => intro _ s t; simp
  | cons t0 ts ih =>
      intro hnd s t
      obtain ⟨hni, hnd2⟩ := List.nodup_cons.mp hnd
      rw [List.foldl_cons]
      have ihh := ih hnd2 (applyTypeStep sorted s t0) t
      have step : ((applyTypeStep sorted s t0).appliedRules.filter
          (fun e => e.ruleType = t)).length ≤
          (s.appliedRules.filter (fun e => e.ruleType = t)).length +
            (if t = t0 then 1 else 0) := by
        rcases hg : rulesOfType sorted t0 with _ | ⟨r, rest⟩
        · simp only [applyTypeStep, hg]
          exact Nat.le_add_right _ _
        · have hrt : r.ruleType = t0 :=
            (mem_rulesOfType.mp (hg ▸ List.mem_cons_self r rest)).2
          simp only [applyTypeStep, hg]
          by_cases hpos : 0 < (calculateDiscount s.currentPrice r.discountType
              r.discountValue).discountAmount
          · simp only [applyRuleStep, if_pos hpos, List.filter_append,
              List.length_append]
            by_cases hteq : t = t0
            · subst hteq
              simp [hrt]
            · have hne : ¬ r.ruleType = t := by
                rw [hrt]
                exact fun hh => hteq hh.symm
              simp [hne, hteq]
          · simp only [applyRuleStep, if_neg hpos]
            exact Nat.le_add_right _ _
      by_cases h1 : t = t0
      · have h2 : t ∉ ts := h1 ▸ hni
        rw [if_pos (List.mem_cons.mpr (Or.inl h1))]
        rw [if_neg h2] at ihh
        rw [if_pos h1] at step
        omega
      · rw [if_neg h1] at step
        by_cases h2 : t ∈ ts
        · rw [if_pos h2] at ihh
          rw [if_pos (List.mem_cons.mpr (Or.inr h2))]
          omega
        · rw [if_neg h2] at ihh
          rw [if_neg (fun hh => (List.mem_cons.mp hh).elim h1 h2)]
          omega

/-- C5: calculateQuoteTotals returns the rounded item sum as subtotal,
taxes the unrounded item sum minus the whole-quote discount without
clamping (a discount exceeding the sum makes the taxable amount
negative and it propagates into taxAmount and totalAmount), rounds
taxAmount and totalAmount to two decimals, and its omitted-argument
defaults are a tax rate of 5 percent and a discount of 0. -/
theorem C5_quote_totals (items : List QuoteItem) (taxRate discountAmount : ℚ) :
    calculateQuoteTotals items taxRate discountAmount =
      { subtotal := round2 (itemsSubtotal items),
        taxAmount := round2 ((itemsSubtotal items - discountAmount) * taxRate),
        totalAmount := round2 ((itemsSubtotal items - discountAmount) +
          round2 ((itemsSubtotal items - discountAmount) * taxRate)) } ∧
    calculateQuoteTotalsDefaults items = calculateQuoteTotals items (5 / 100) 0 := by
  have hsum : items.foldl (fun sum item => sum + item.unitPrice * item.quantity) 0 =
      itemsSubtotal items := by
    rw [quote_foldl_sum]
    ring
  constructor
  · simp only [calculateQuoteTotals, hsum]
  · rfl

/-- C10: every audit entry of a price calculation has a strictly
positive discount amount, the result's total discount is the sum of
the recorded amounts, and an application step whose computed discount
amount is not positive changes nothing: neither price, nor audit
trail, nor total. -/
theorem C10_audit_invariants (context : PricingContext)
    (rules : List CalculationRule) (now : Int) :
    (∀ e ∈ (calculatePrice context rules now).appliedRules, 0 < e.discountAmount) ∧
    (calculatePrice context rules now).discountAmount =
      ((calculatePrice context rules now).appliedRules.map
        (fun e => e.discountAmount)).sum ∧
    (∀ (s : PriceState) (r : CalculationRule),
      (calculateDiscount s.currentPrice r.discountType r.discountValue).discountAmount ≤ 0 →
      applyRuleStep s r = s) := by
  have key := foldl_applyTypeStep_invariant
    (sortByPriorityDesc (filterApplicableRules rules context now)) typeOrder
    { currentPrice := context.basePrice, totalDiscountAmount := 0, appliedRules := [] }
    (by simp) (by simp)
  refine ⟨key.1, key.2, ?_⟩
  intro s r h
  simp only [applyRuleStep, if_neg (not_lt.mpr h)]

/-- C10 witness: a price-override rule at or above the running price
has a non-positive computed amount and its application step is the
identity. -/
theorem C10_audit_invariants_witness :
    (calculateDiscount c10State.currentPrice c10Rule.discountType
      c10Rule.discountValue).discountAmount ≤ 0 ∧
    applyRuleStep c10State c10Rule = c10State :=
  ⟨by simp [calculateDiscount, c10State, c10Rule] <;> norm_num,
    (C10_audit_invariants c4Context [] 0).2.2 c10State c10Rule
      (by simp [calculateDiscount, c10State, c10Rule] <;> norm_num)⟩

/-- C2: for every context and rule list, at most one audit entry of
any given rule type is ever recorded, and any recorded entry of that
type is stamped from an applicable rule of that type whose priority is
maximal among the applicable rules of that type — a lower-priority
rule of the same type never contributes. -/
theorem C2_no_same_type_stacking (context : PricingContext)
    (rules : List CalculationRule) (now : Int) (t : String) :
    ((calculatePrice context rules now).appliedRules.filter
      (fun e => e.ruleType = t)).length ≤ 1 ∧
    ∀ e ∈ (calculatePrice context rules now).appliedRules, e.ruleType = t →
      ∃ r, r ∈ filterApplicableRules rules context now ∧ r.ruleType = t ∧
        e.ruleId = r.id ∧ e.ruleName = r.name ∧ e.discountType = r.discountType ∧
        e.discountValue = r.discountValue ∧ e.priority = r.priority ∧
        ∀ r2 ∈ filterApplicableRules rules context now, r2.ruleType = t →
          r2.priority ≤ r.priority := by
  constructor
  · have h := foldl_applyTypeStep_count
      (sortByPriorityDesc (filterApplicableRules rules context now)) typeOrder
      (by decide)
      { currentPrice := context.basePrice, totalDiscountAmount := 0, appliedRules := [] }
      t
    have h2 : (if t ∈ typeOrder then 1 else 0) ≤ 1 := by
      by_cases hmem : t ∈ typeOrder
      · rw [if_pos hmem]
      · rw [if_neg hmem]
        omega
    exact le_trans (by simpa using h) h2
  · intro e he ht
    rcases foldl_applyTypeStep_mem
        (sortByPriorityDesc (filterApplicableRules rules context now)) typeOrder
        { currentPrice := context.basePrice, totalDiscountAmount := 0,
          appliedRules := [] } e he with h | ⟨t2, _, r, rest, hg, f1, f2, f3, f4, f5, f6⟩
    · exact absurd h (List.not_mem_nil e)
    · have hrhead : r ∈ rulesOfType
          (sortByPriorityDesc (filterApplicableRules rules context now)) t2 :=
        hg ▸ List.mem_cons_self r rest
      have hrt2 : r.ruleType = t2 := (mem_rulesOfType.mp hrhead).2
      have ht2t : t2 = t := by rw [← hrt2, ← f3, ht]
      subst ht2t
      refine ⟨r, ?_, hrt2, f1, f2, f4, f5, f6, ?_⟩
      · exact mem_sortByPriorityDesc.mp (mem_rulesOfType.mp hrhead).1
      · intro r2 hr2 hrt
        have hmem : r2 ∈ rulesOfType
            (sortByPriorityDesc (filterApplicableRules rules context now)) t2 :=
          (rulesOfType_sort_perm _ _).mem_iff.mpr (mem_rulesOfType.mpr ⟨hr2, hrt⟩)
        rw [hg] at hmem
        rcases List.mem_cons.mp hmem with h | hmem2
        · rw [h]
        · have hpw := rulesOfType_sorted_pairwise
            (filterApplicableRules rules context now) t2
          rw [hg] at hpw
          exact (List.pairwise_cons.mp hpw).1 r2 hmem2

/-- C2 witness: with two applicable tier rules of priorities 5 and 1,
the recorded tier entry is stamped from the priority-5 rule and its
priority is maximal among applicable tier rules. -/
theorem C2_no_same_type_stacking_witness :
    (c2Entry ∈ (calculatePrice c2Context [c2TierLow, c2TierHigh] 0).appliedRules ∧
      c2Entry.ruleType = "tier") ∧
    (∃ r, r ∈ filterApplicableRules [c2TierLow, c2TierHigh] c2Context 0 ∧
      r.ruleType = "tier" ∧ c2Entry.ruleId = r.id ∧ c2Entry.ruleName = r.name ∧
      c2Entry.discountType = r.discountType ∧ c2Entry.discountValue = r.discountValue ∧
      c2Entry.priority = r.priority ∧
      ∀ r2 ∈ filterApplicableRules [c2TierLow, c2TierHigh] c2Context 0,
        r2.ruleType = "tier" → r2.priority ≤ r.priority) := by
  have hmem : c2Entry ∈ (calculatePrice c2Context [c2TierLow, c2TierHigh] 0).appliedRules := by
    simp [calculatePrice, filterApplicableRules, ruleMatches, productScopeMatch,
      categoryScopeMatch, matchesTierCondition, c2Context, c2TierLow, c2TierHigh,
      c2Entry, Conditions.empty, sortByPriorityDesc, List.insertionSort,
      List.orderedInsert, priorityDesc, typeOrder, applyTypeStep, rulesOfType,
      applyRuleStep, calculateDiscount, finalizeResult, round2, jsRound] <;>
    norm_num
  exact ⟨⟨hmem, rfl⟩,
    (C2_no_same_type_stacking c2Context [c2TierLow, c2TierHigh] 0 "tier").2
      c2Entry hmem rfl⟩

/-- C1: whenever the applicable rules contain exactly one rule of each
of the four known types, the calculation equals applying those four
rules in the fixed order promotion, bundle, tier, customer_level —
each step on the running price left by the previous one — with the
rules' priority values nowhere involved. -/
theorem C1_fixed_type_order (context : PricingContext) (rules : List CalculationRule)
    (now : Int) (rp rb rt rc : CalculationRule)
    (hp : rulesOfType (filterApplicableRules rules context now) "promotion" = [rp])
    (hb : rulesOfType (filterApplicableRules rules context now) "bundle" = [rb])
    (ht : rulesOfType (filterApplicableRules rules context now) "tier" = [rt])
    (hc : rulesOfType (filterApplicableRules rules context now) "customer_level" = [rc]) :
    calculatePrice context rules now =
      finalizeResult context
        (List.foldl applyRuleStep
          { currentPrice := context.basePrice, totalDiscountAmount := 0,
            appliedRules := [] } [rp, rb, rt, rc]) := by
  have hp2 := rulesOfType_sort_singleton hp
  have hb2 := rulesOfType_sort_singleton hb
  have ht2 := rulesOfType_sort_singleton ht
  have hc2 := rulesOfType_sort_singleton hc
  simp only [calculatePrice, typeOrder, List.foldl_cons, List.foldl_nil,
    applyTypeStep, hp2, hb2, ht2, hc2]

/-- C1 witness: a list holding one applicable rule of each type, given
in reverse type order and with priorities increasing against the fixed
order, still computes as promotion, then bundle, then tier, then
customer level. -/
theorem C1_fixed_type_order_witness :
    (rulesOfType (filterApplicableRules [c1Level, c1Tier, c1Bundle, c1Promotion]
        c1Context 0) "promotion" = [c1Promotion] ∧
      rulesOfType (filterApplicableRules [c1Level, c1Tier, c1Bundle, c1Promotion]
        c1Context 0) "bundle" = [c1Bundle] ∧
      rulesOfType (filterApplicableRules [c1Level, c1Tier, c1Bundle, c1Promotion]
        c1Context 0) "tier" = [c1Tier] ∧
      rulesOfType (filterApplicableRules [c1Level, c1Tier, c1Bundle, c1Promotion]
        c1Context 0) "customer_level" = [c1Level]) ∧
    calculatePrice c1Context [c1Level, c1Tier, c1Bundle, c1Promotion] 0 =
      finalizeResult c1Context
        (List.foldl applyRuleStep
          { currentPrice := c1Context.basePrice, totalDiscountAmount := 0,
            appliedRules := [] } [c1Promotion, c1Bundle, c1Tier, c1Level]) := by
  have h1 : rulesOfType (filterApplicableRules [c1Level, c1Tier, c1Bundle, c1Promotion]
      c1Context 0) "promotion" = [c1Promotion] := by
    simp [rulesOfType, filterApplicableRules, ruleMatches, productScopeMatch,
      categoryScopeMatch, matchesTierCondition, matchesCustomerLevelCondition,
      matchesBundleCondition, isPromotionActive, c1Context, c1Promotion, c1Bundle,
      c1Tier, c1Level, Conditions.empty,
      show ¬(10:ℚ) < 5 by norm_num, show ¬(10:ℚ) < 0 by norm_num]
  have h2 : rulesOfType (filterApplicableRules [c1Level, c1Tier, c1Bundle, c1Promotion]
      c1Context 0) "bundle" = [c1Bundle] := by
    simp [rulesOfType, filterApplicableRules, ruleMatches, productScopeMatch,
      categoryScopeMatch, matchesTierCondition, matchesCustomerLevelCondition,
      matchesBundleCondition, isPromotionActive, c1Context, c1Promotion, c1Bundle,
      c1Tier, c1Level, Conditions.empty,
      show ¬(10:ℚ) < 5 by norm_num, show ¬(10:ℚ) < 0 by norm_num]
  have h3 : rulesOfType (filterApplicableRules [c1Level, c1Tier, c1Bundle, c1Promotion]
      c1Context 0) "tier" = [c1Tier] := by
    simp [rulesOfType, filterApplicableRules, ruleMatches, productScopeMatch,
      categoryScopeMatch, matchesTierCondition, matchesCustomerLevelCondition,
      matchesBundleCondition, isPromotionActive, c1Context, c1Promotion, c1Bundle,
      c1Tier, c1Level, Conditions.empty,
      show ¬(10:ℚ) < 5 by norm_num, show ¬(10:ℚ) < 0 by norm_num]
  have h4 : rulesOfType (filterApplicableRules [c1Level, c1Tier, c1Bundle, c1Promotion]
      c1Context 0) "customer_level" = [c1Level] := by
    simp [rulesOfType, filterApplicableRules, ruleMatches, productScopeMatch,
      categoryScopeMatch, matchesTierCondition, matchesCustomerLevelCondition,
      matchesBundleCondition, isPromotionActive, c1Context, c1Promotion, c1Bundle,
      c1Tier, c1Level, Conditions.empty,
      show ¬(10:ℚ) < 5 by norm_num, show ¬(10:ℚ) < 0 by norm_num]
  exact ⟨⟨h1, h2, h3, h4⟩,
    C1_fixed_type_order c1Context [c1Level, c1Tier, c1Bundle, c1Promotion] 0
      c1Promotion c1Bundle c1Tier c1Level h1 h2 h3 h4⟩

/-- C9 (amended): the engine performs no re-validation of active
status: the result of calculatePrice is invariant under arbitrary
reassignment of the is_active flags of the supplied persisted rules,
since the hand-off to CalculationRule discards the flag.  Callers must
pre-filter to active rules themselves. -/
theorem C9_no_active_revalidation (context : PricingContext) (now : Int)
    (prules : List PricingRule) (f : PricingRule → Bool) :
    calculatePrice context
      ((prules.map (fun r => { r with is_active := f r })).map toCalculationRule) now =
    calculatePrice context (prules.map toCalculationRule) now := by
  rw [List.map_map]
  have h : (toCalculationRule ∘ fun r => { r with is_active := f r }) =
      toCalculationRule := funext fun r => rfl
  rw [h]

end QuotationSystem
